import Mathlib

/-!
Shallow embedding of the ReplicaSet controller in
`src/Kubernetes/MakeMySelf/Replica/main_v.py`.

Modelling conventions:
* Python `Dict[str, str]` label maps become association lists (`Labels`),
  queried only through `List.lookup`; `d.copy(); d.update(u)` therefore
  becomes `u ++ d` (lookup finds `u` first, matching dict-update semantics).
* `datetime.now()` timestamps and `uuid.uuid4()` identifiers are supplied by
  a single monotone counter `ctr` threaded through the stateful operations;
  each pod creation consumes one tick, so creation timestamps are fresh and
  strictly increasing, as the source's wall clock makes them in practice.
* `random.random() < 0.1` in `Pod.start` is modelled by an oracle
  `rand : Nat → Bool` indexed by the creating tick (`rand i = true` means the
  start attempt drawn at tick `i` fails).
* `asyncio.sleep` suspensions are dropped: `reconcile` awaits every batch
  (`asyncio.gather`) before proceeding, and each `start`/`terminate` task
  mutates only its own pod, so the state after the barrier is the sequential
  composition modelled here.
* Event-log timestamps, logging, locks and the unused `_conditions` fields
  are not modelled; the event sequence itself is kept.
-/

namespace Replica

/-- Python type alias `Labels = Dict[str, str]`, as an association list. -/
abbrev Labels := List (String × String)

/-- Python type alias `PodID = str`. -/
abbrev PodID := String

/-- `NAMESPACE: Final[str] = "default"`. -/
def NAMESPACE : String := "default"

/-- `class PodPhase(Enum)`: lifecycle phases of a Pod. -/
inductive PodPhase where
  | pending
  | running
  | succeeded
  | failed
  | terminating
deriving DecidableEq

/-- `PodPhase.name` as used in transition log messages. -/
def PodPhase.name : PodPhase → String
  | .pending => "PENDING"
  | .running => "RUNNING"
  | .succeeded => "SUCCEEDED"
  | .failed => "FAILED"
  | .terminating => "TERMINATING"

/-- `class EventType(Enum)`: Kubernetes event types. -/
inductive EventType where
  | podCreated
  | podStarted
  | podTerminated
  | podFailed
  | replicaScaled
  | reconcileStart
  | reconcileEnd
deriving DecidableEq

/-- `@dataclass PodSpec`: simplified pod specification. -/
structure PodSpec where
  image : String := "nginx:latest"
  replicas : Nat := 1
  resources : Labels := [("cpu", "100m"), ("memory", "128Mi")]
  restartPolicy : String := "Always"
deriving DecidableEq

/-- One entry of `pod.metadata.owner_references` (a `Dict[str, str]`). -/
structure OwnerReference where
  apiVersion : String
  kind : String
  name : String
  uid : String
  controller : String
  blockOwnerDeletion : String
deriving DecidableEq

/-- `@dataclass PodMetadata`. -/
structure PodMetadata where
  name : String
  ns : String := NAMESPACE
  uid : String
  labels : Labels := []
  annotations : Labels := []
  creationTimestamp : Nat
  ownerReferences : List OwnerReference := []
deriving DecidableEq

/-- One entry of `pod._container_statuses`, as built by
`Pod._update_container_statuses`. -/
structure ContainerStatus where
  name : String
  state : String
  ready : Bool
  restartCount : Nat
  image : String
deriving DecidableEq

/-- `class Pod`: the mutable pod object (`_phase`, `_container_statuses`,
`_events`), with locks dropped. -/
structure Pod where
  metadata : PodMetadata
  spec : PodSpec
  phase : PodPhase
  containerStatuses : List ContainerStatus
  events : List (EventType × String)
deriving DecidableEq

/-- `Pod._record_event(event_type, message)` (timestamp not modelled). -/
def Pod.recordEvent (p : Pod) (et : EventType) (msg : String) : Pod :=
  { p with events := p.events ++ [(et, msg)] }

/-- `Pod.__init__(metadata, spec, phase=PENDING)`: statuses and events start
empty, then a `POD_CREATED` event is recorded. -/
def Pod.init (metadata : PodMetadata) (spec : PodSpec)
    (phase : PodPhase := PodPhase.pending) : Pod :=
  Pod.recordEvent
    { metadata := metadata, spec := spec, phase := phase,
      containerStatuses := [], events := [] }
    EventType.podCreated "Pod created"

/-- The `phase` property setter: changes the phase and records the event. -/
def Pod.setPhase (p : Pod) (newPhase : PodPhase) : Pod :=
  Pod.recordEvent { p with phase := newPhase }
    (if newPhase = PodPhase.running then EventType.podStarted
     else EventType.podTerminated)
    ("Pod transitioned from " ++ p.phase.name ++ " to " ++ newPhase.name)

/-- `Pod._update_container_statuses(status)`. -/
def Pod.updateContainerStatuses (p : Pod) (status : String) : Pod :=
  { p with
    containerStatuses := (List.range p.spec.replicas).map fun i =>
      { name := "container-" ++ toString i, state := status,
        ready := status = "Running", restartCount := 0,
        image := p.spec.image } }

/-- `Pod.start()` with the random draw `fail` made explicit
(`fail = true` models `random.random() < 0.1`); the startup sleep is
dropped. -/
def Pod.start (p : Pod) (fail : Bool) : Pod :=
  if p.phase ≠ PodPhase.pending then p
  else if fail then
    Pod.recordEvent (p.setPhase PodPhase.failed)
      EventType.podFailed "Failed to start containers"
  else
    (p.setPhase PodPhase.running).updateContainerStatuses "Running"

/-- `Pod.terminate(grace_period)`: no-op from a terminal or terminating
phase, otherwise TERMINATING then (after the sleep) SUCCEEDED. -/
def Pod.terminate (p : Pod) : Pod :=
  if p.phase = PodPhase.succeeded ∨ p.phase = PodPhase.failed ∨
      p.phase = PodPhase.terminating then p
  else
    ((p.setPhase PodPhase.terminating).setPhase
      PodPhase.succeeded).updateContainerStatuses "Terminated"

/-- `Pod.matches_labels(selector)`: equality-based subset test. -/
def Pod.matchesLabels (p : Pod) (selector : Labels) : Bool :=
  selector.all fun kv => p.metadata.labels.lookup kv.1 == some kv.2

/-- `Pod.is_ready()`: RUNNING and every container status reports ready. -/
def Pod.isReady (p : Pod) : Bool :=
  p.phase = PodPhase.running && p.containerStatuses.all fun st => st.ready

/-- The pod template, a `Dict[str, Any]` read through
`template.get("labels", {})`, `template.get("annotations", {})` and
`template.get("spec", {})`. -/
structure PodTemplate where
  labels : Labels := []
  annotations : Labels := []
  spec : PodSpec := {}
deriving DecidableEq

/-- `@dataclass ReplicaSetSpec`: `replicas` is a Python `int`, so it can be
negative. -/
structure ReplicaSetSpec where
  replicas : Int
  selector : Labels
  template : PodTemplate
  minReadySeconds : Nat := 0
deriving DecidableEq

/-- The `_metrics` dictionary of a `ReplicaSet` (`last_reconcile` holds the
tick at which `reconcile` last ran, standing in for `datetime.now()`). -/
structure Metrics where
  podsCreated : Nat := 0
  podsDeleted : Nat := 0
  reconcileCount : Nat := 0
  lastReconcile : Option Nat := none
deriving DecidableEq

/-- `class ReplicaSet`: the controller state (`spec`, `_pods`, `_generation`,
`_observed_generation`, `_metrics`); `_pods` is an insertion-ordered
dictionary, modelled as an association list keyed by pod uid. -/
structure ReplicaSet where
  name : String
  ns : String := NAMESPACE
  uid : String
  spec : Option ReplicaSetSpec := none
  pods : List (PodID × Pod) := []
  generation : Nat := 0
  observedGeneration : Nat := 0
  metrics : Metrics := {}
deriving DecidableEq

/-- `ReplicaSet.__init__(name, namespace=NAMESPACE)`; `uid` stands for the
generated `uuid.uuid4()`. -/
def ReplicaSet.init (name : String) (uid : String)
    (ns : String := NAMESPACE) : ReplicaSet :=
  { name := name, ns := ns, uid := uid }

/-- `ReplicaSet.update_spec(spec)`: stores the spec and bumps the
generation; the source performs no validation. -/
def ReplicaSet.updateSpec (rs : ReplicaSet) (spec : ReplicaSetSpec) :
    ReplicaSet :=
  { rs with spec := some spec, generation := rs.generation + 1 }

/-- `ReplicaSet.get_owned_pods()`: pods with an owner reference whose uid
equals this ReplicaSet's uid. -/
def ReplicaSet.getOwnedPods (rs : ReplicaSet) : List Pod :=
  (rs.pods.map Prod.snd).filter fun p =>
    p.metadata.ownerReferences.any fun ref => ref.uid == rs.uid

/-- `ReplicaSet.get_matching_pods()`: label-matching pods whose phase is not
in `[SUCCEEDED, FAILED, TERMINATING]`; `[]` when no spec is set. -/
def ReplicaSet.getMatchingPods (rs : ReplicaSet) : List Pod :=
  match rs.spec with
  | none => []
  | some s =>
    (rs.pods.map Prod.snd).filter fun p =>
      p.matchesLabels s.selector &&
        !(p.phase == PodPhase.succeeded || p.phase == PodPhase.failed ||
          p.phase == PodPhase.terminating)

/-- `ReplicaSet._create_pod()` at tick `ctr`; `s` is `self.spec`, which is
non-`None` on every call path.  Labels are the template labels updated by
the selector (selector wins on conflicting keys, hence listed first). -/
def ReplicaSet.createPod (rs : ReplicaSet) (s : ReplicaSetSpec) (ctr : Nat) :
    Pod :=
  let ownerRef : OwnerReference :=
    { apiVersion := "apps/v1", kind := "ReplicaSet", name := rs.name,
      uid := rs.uid, controller := "true", blockOwnerDeletion := "true" }
  Pod.init
    { name := rs.name ++ "-" ++ toString ctr, ns := rs.ns,
      uid := "uid-" ++ toString ctr,
      labels := s.selector ++ s.template.labels,
      annotations := s.template.annotations,
      creationTimestamp := ctr,
      ownerReferences := [ownerRef] }
    s.template.spec

/-- `ReplicaSet._scale_up(count)`: create `count` pods, register them in
`_pods`, bump `pods_created`, and `await asyncio.gather` of their `start()`
tasks.  Each `start()` mutates only its own pod, so the post-barrier state
is each new pod started at its creation tick. -/
def ReplicaSet.scaleUp (rs : ReplicaSet) (s : ReplicaSetSpec) (count : Nat)
    (rand : Nat → Bool) (ctr : Nat) : ReplicaSet × Nat :=
  let newPods := (List.range count).map fun i =>
    (rs.createPod s (ctr + i)).start (rand (ctr + i))
  ({ rs with
      pods := rs.pods ++ newPods.map fun p => (p.metadata.uid, p),
      metrics := { rs.metrics with
        podsCreated := rs.metrics.podsCreated + count } },
    ctr + count)

/-- `sorted(pods, key=lambda p: p.metadata.creation_timestamp, reverse=True)`:
stable sort descending by creation timestamp (insertion sort is stable, like
Python's sort). -/
def sortByNewest (pods : List Pod) : List Pod :=
  pods.insertionSort fun a b =>
    b.metadata.creationTimestamp ≤ a.metadata.creationTimestamp

/-- `ReplicaSet._scale_down(count, pods)`: pick the `count` most recently
created of `pods`, `terminate()` them all (barrier), bump `pods_deleted`
once per victim, then pop the victims from `_pods`.  The second component
returned is the caller's `pods` list as it stands afterwards: `terminate()`
mutated the victim objects in place, which the source leaves aliased inside
the caller's list. -/
def ReplicaSet.scaleDown (rs : ReplicaSet) (count : Nat) (pods : List Pod) :
    ReplicaSet × List Pod :=
  let podsToDelete := (sortByNewest pods).take count
  let victimUids := podsToDelete.map fun p => p.metadata.uid
  ({ rs with
      metrics := { rs.metrics with
        podsDeleted := rs.metrics.podsDeleted + podsToDelete.length },
      pods := rs.pods.filter fun e => !(victimUids.contains e.1) },
    pods.map fun p =>
      if victimUids.contains p.metadata.uid then p.terminate else p)

/-- `ReplicaSet._replace_failed_pods(pods)`: among the pods *passed in*,
find those in FAILED phase, pop them from `_pods`, and scale up by their
number; nothing happens when none of the passed pods is failed. -/
def ReplicaSet.replaceFailedPods (rs : ReplicaSet) (s : ReplicaSetSpec)
    (pods : List Pod) (rand : Nat → Bool) (ctr : Nat) : ReplicaSet × Nat :=
  let failedPods := pods.filter fun p => p.phase == PodPhase.failed
  if failedPods.isEmpty then (rs, ctr)
  else
    let failedUids := failedPods.map fun p => p.metadata.uid
    ReplicaSet.scaleUp
      { rs with pods := rs.pods.filter fun e => !(failedUids.contains e.1) }
      s failedPods.length rand ctr

/-- `ReplicaSet.reconcile()`: no-op without a spec; otherwise bump metrics,
read the matching pods, scale up or down to the desired count, run the
failed-pod replacement pass on the pod list read at the top, and record the
observed generation. -/
def ReplicaSet.reconcile (rs : ReplicaSet) (rand : Nat → Bool) (ctr : Nat) :
    ReplicaSet × Nat :=
  match rs.spec with
  | none => (rs, ctr)
  | some s =>
    let rs1 := { rs with metrics := { rs.metrics with
      reconcileCount := rs.metrics.reconcileCount + 1,
      lastReconcile := some ctr } }
    let currentPods := rs1.getMatchingPods
    let currentCount : Int := currentPods.length
    let desiredCount : Int := s.replicas
    let step : ReplicaSet × List Pod × Nat :=
      if currentCount < desiredCount then
        let r := rs1.scaleUp s (desiredCount - currentCount).toNat rand ctr
        (r.1, currentPods, r.2)
      else if currentCount > desiredCount then
        let r := rs1.scaleDown (currentCount - desiredCount).toNat currentPods
        (r.1, r.2, ctr)
      else
        (rs1, currentPods, ctr)
    let rep := ReplicaSet.replaceFailedPods step.1 s step.2.1 rand step.2.2
    ({ rep.1 with observedGeneration := rep.1.generation }, rep.2)

/-- `ChaosMonkey.run`'s fault injection on a chosen victim:
`victim.phase = PodPhase.FAILED`, i.e. the phase setter applied to the owned
pod with the given uid (container statuses untouched). -/
def ReplicaSet.forceFailPod (rs : ReplicaSet) (uid : PodID) : ReplicaSet :=
  { rs with pods := rs.pods.map fun e =>
      if e.1 == uid then (e.1, e.2.setPhase PodPhase.failed) else e }

/-- The exception raised by `ControllerManager.create_replica_set` on a
duplicate name: `ValueError(f"ReplicaSet {name} already exists")` (the
spec's taxonomy calls this condition `DuplicateNameError`). -/
inductive ControllerError where
  | valueError (msg : String)
deriving DecidableEq

/-- `class ControllerManager`: registry of ReplicaSets keyed by name
(insertion-ordered dictionary as an association list). -/
structure ControllerManager where
  replicaSets : List (String × ReplicaSet) := []
deriving DecidableEq

/-- `ControllerManager.create_replica_set(name, replicas, selector,
pod_template)`: raises when the name is already registered (before any
mutation), otherwise builds the ReplicaSet, applies the spec and registers
it; `uid` stands for the new ReplicaSet's `uuid.uuid4()`. -/
def ControllerManager.createReplicaSet (cm : ControllerManager)
    (name : String) (replicas : Int) (selector : Labels)
    (podTemplate : PodTemplate) (uid : String) :
    Except ControllerError (ControllerManager × ReplicaSet) :=
  if (cm.replicaSets.lookup name).isSome then
    Except.error (ControllerError.valueError
      ("ReplicaSet " ++ name ++ " already exists"))
  else
    let rs := (ReplicaSet.init name uid).updateSpec
      { replicas := replicas, selector := selector, template := podTemplate }
    Except.ok ({ cm with replicaSets := cm.replicaSets ++ [(name, rs)] }, rs)

/-! ### Helper lemmas on association-list lookup -/

theorem lookup_eq_none_of_not_mem_keys {α β : Type} [BEq α] [LawfulBEq α]
    {l : List (α × β)} {k : α} (h : k ∉ l.map Prod.fst) :
    l.lookup k = none := by
  induction l with
  | nil => rfl
  | cons e t ih =>
    obtain ⟨ek, ev⟩ := e
    simp only [List.map_cons, List.mem_cons, not_or] at h
    have hbe : (k == ek) = false := beq_eq_false_iff_ne.mpr h.1
    simp only [List.lookup_cons, hbe]
    exact ih h.2

theorem lookup_append_of_left_none {α β : Type} [BEq α] [LawfulBEq α]
    {l₁ l₂ : List (α × β)} {k : α} (h : l₁.lookup k = none) :
    (l₁ ++ l₂).lookup k = l₂.lookup k := by
  induction l₁ with
  | nil => rfl
  | cons e t ih =>
    obtain ⟨ek, ev⟩ := e
    cases hbe : k == ek with
    | true => simp only [List.lookup_cons, hbe] at h; exact absurd h (by simp)
    | false =>
      simp only [List.lookup_cons, List.cons_append, hbe] at h ⊢
      exact ih h

theorem lookup_append_of_left_some {α β : Type} [BEq α] [LawfulBEq α]
    {l₁ l₂ : List (α × β)} {k : α} {v : β} (h : l₁.lookup k = some v) :
    (l₁ ++ l₂).lookup k = some v := by
  induction l₁ with
  | nil => simp [List.lookup] at h
  | cons e t ih =>
    obtain ⟨ek, ev⟩ := e
    cases hbe : k == ek with
    | true => simp only [List.lookup_cons, List.cons_append, hbe] at h ⊢; exact h
    | false =>
      simp only [List.lookup_cons, List.cons_append, hbe] at h ⊢
      exact ih h

theorem lookup_of_mem_of_nodup_keys {α β : Type} [BEq α] [LawfulBEq α]
    {l : List (α × β)} {k : α} {v : β}
    (hnd : (l.map Prod.fst).Nodup) (hm : (k, v) ∈ l) :
    l.lookup k = some v := by
  induction l with
  | nil => simp at hm
  | cons e t ih =>
    obtain ⟨ek, ev⟩ := e
    simp only [List.map_cons, List.nodup_cons] at hnd
    rcases List.mem_cons.mp hm with he | ht
    · rw [Prod.mk.injEq] at he
      obtain ⟨h1, h2⟩ := he
      subst h1; subst h2
      simp [List.lookup_cons]
    · have hk : k ≠ ek := by
        intro hkeq
        exact hnd.1 (hkeq ▸ (List.mem_map.mpr ⟨(k, v), ht, rfl⟩))
      have hbe : (k == ek) = false := beq_eq_false_iff_ne.mpr hk
      simp only [List.lookup_cons, hbe]
      exact ih hnd.2 ht

theorem not_mem_keys_of_lookup_eq_none {α β : Type} [BEq α] [LawfulBEq α]
    {l : List (α × β)} {k : α} (h : l.lookup k = none) :
    k ∉ l.map Prod.fst := by
  induction l with
  | nil => simp
  | cons e t ih =>
    obtain ⟨ek, ev⟩ := e
    cases hbe : k == ek with
    | true =>
      simp only [List.lookup_cons, hbe] at h
      exact absurd h (by simp)
    | false =>
      simp only [List.lookup_cons, hbe] at h
      simp only [List.map_cons, List.mem_cons, not_or]
      exact ⟨beq_eq_false_iff_ne.mp hbe, ih h⟩

theorem map_eq_self_of_fixed {α : Type} {l : List α} {f : α → α}
    (h : ∀ a ∈ l, f a = a) : l.map f = l := by
  induction l with
  | nil => rfl
  | cons a t ih =>
    simp only [List.map_cons, h a (List.mem_cons_self a t),
      ih fun b hb => h b (List.mem_cons_of_mem a hb)]

/-- Characterization of `matches_labels`, shared by several results below. -/
theorem matchesLabels_eq_true_iff (p : Pod) (selector : Labels) :
    p.matchesLabels selector = true ↔
      ∀ kv ∈ selector, p.metadata.labels.lookup kv.1 = some kv.2 := by
  simp [Pod.matchesLabels, List.all_eq_true]

/-- Membership in `get_matching_pods` when a spec is set. -/
theorem mem_getMatchingPods_iff {rs : ReplicaSet} {s : ReplicaSetSpec}
    (hspec : rs.spec = some s) (p : Pod) :
    p ∈ rs.getMatchingPods ↔
      p ∈ rs.pods.map Prod.snd ∧ p.matchesLabels s.selector = true ∧
        p.phase ≠ PodPhase.succeeded ∧ p.phase ≠ PodPhase.failed ∧
        p.phase ≠ PodPhase.terminating := by
  simp only [ReplicaSet.getMatchingPods, hspec, List.mem_filter,
    Bool.and_eq_true, Bool.not_eq_true', Bool.or_eq_false_iff, beq_eq_false_iff_ne]
  tauto

/-! ### Concrete fixtures (used by witnesses and counterexamples) -/

/-- The demo's template shape, reduced to one selector label. -/
def webTemplate : PodTemplate := { labels := [("app", "web")] }

/-- A spec asking for one replica of the `app=web` workload. -/
def webSpec1 : ReplicaSetSpec :=
  { replicas := 1, selector := [("app", "web")], template := webTemplate }

/-- A deterministic random source on which every `start()` succeeds
(`random.random() < 0.1` never fires). -/
def randNever : Nat → Bool := fun _ => false

/-- A fresh `web` ReplicaSet with `webSpec1` applied. -/
def rsWeb0 : ReplicaSet := (ReplicaSet.init "web" "rs-uid").updateSpec webSpec1

/-- `rsWeb0` after one converging reconcile: one running matching pod,
`uid-0`. -/
def rsWeb1 : ReplicaSet := (rsWeb0.reconcile randNever 0).1

/-- The single pod owned by `rsWeb1`. -/
def podWeb0 : Pod := (rsWeb0.createPod webSpec1 0).start false

/-- A spec asking for three replicas of the `app=web` workload. -/
def webSpec3 : ReplicaSetSpec :=
  { replicas := 3, selector := [("app", "web")], template := webTemplate }

/-- `webSpec3` scaled down to two replicas. -/
def webSpec2 : ReplicaSetSpec := { webSpec3 with replicas := 2 }

/-- A `web` group converged at three running pods `uid-0`, `uid-1`,
`uid-2` with creation timestamps 0 < 1 < 2. -/
def rsWeb3 : ReplicaSet :=
  (((ReplicaSet.init "web" "rs-uid").updateSpec webSpec3).reconcile
    randNever 0).1

/-- A spec whose selector is empty. -/
def emptySelSpec : ReplicaSetSpec :=
  { replicas := 1, selector := [], template := webTemplate }

/-- Metadata for `strayPod`. -/
def strayPodMeta : PodMetadata :=
  { name := "stray", uid := "stray-uid", labels := [("team", "x")],
    creationTimestamp := 5 }

/-- A running pod whose labels do not mention the `app` key at all. -/
def strayPod : Pod := Pod.init strayPodMeta {} PodPhase.running

/-- A group with an empty selector owning `strayPod`. -/
def rsEmptySel : ReplicaSet :=
  { name := "any", uid := "rs-uid-2", spec := some emptySelSpec,
    pods := [("stray-uid", strayPod)] }

/-- Metadata for `pendingPod`. -/
def pendingPodMeta : PodMetadata :=
  { name := "p0", uid := "pu0", creationTimestamp := 0 }

/-- A pending pod created outside any group. -/
def pendingPod : Pod := Pod.init pendingPodMeta {} PodPhase.pending

/-! ### Claim theorems -/

/-- C7: `matches_labels(selector)` returns true if and only if every
key/value pair of the selector is present with an equal value in the pod's
labels; a key missing from the labels makes the match fail. -/
theorem matchesLabels_correct (p : Pod) (selector : Labels) :
    p.matchesLabels selector = true ↔
      ∀ kv ∈ selector, p.metadata.labels.lookup kv.1 = some kv.2 :=
  matchesLabels_eq_true_iff p selector

theorem matchesLabels_correct_witness :
    podWeb0.matchesLabels [("app", "web")] = true :=
  (matchesLabels_correct podWeb0 [("app", "web")]).mpr (by decide)

/-- C8: with a spec set, `get_matching_pods()` returns exactly the owned
pods that match the group's selector and are in a phase other than
Succeeded, Failed or Terminating. -/
theorem getMatchingPods_correct (rs : ReplicaSet) (s : ReplicaSetSpec)
    (hspec : rs.spec = some s) :
    ∀ p : Pod, p ∈ rs.getMatchingPods ↔
      p ∈ rs.pods.map Prod.snd ∧ p.matchesLabels s.selector = true ∧
        p.phase ≠ PodPhase.succeeded ∧ p.phase ≠ PodPhase.failed ∧
        p.phase ≠ PodPhase.terminating :=
  fun p => mem_getMatchingPods_iff hspec p

theorem getMatchingPods_correct_witness :
    rsWeb1.spec = some webSpec1 ∧ podWeb0 ∈ rsWeb1.getMatchingPods :=
  ⟨by decide,
    (getMatchingPods_correct rsWeb1 webSpec1 (by decide) podWeb0).mpr
      (by decide)⟩

/-- C9: `matches_labels` applied to an empty selector returns true for
every pod, so a group whose spec carries an empty selector counts every
owned non-terminal pod as matching. -/
theorem empty_selector_matches_all :
    (∀ p : Pod, p.matchesLabels [] = true) ∧
    ∀ (rs : ReplicaSet) (s : ReplicaSetSpec), rs.spec = some s →
      s.selector = [] →
      rs.getMatchingPods = (rs.pods.map Prod.snd).filter fun p =>
        !(p.phase == PodPhase.succeeded || p.phase == PodPhase.failed ||
          p.phase == PodPhase.terminating) := by
  constructor
  · intro p; rfl
  · intro rs s hspec hsel
    simp only [ReplicaSet.getMatchingPods, hspec, hsel]
    apply List.filter_congr
    intro p _
    simp [Pod.matchesLabels]

theorem empty_selector_matches_all_witness :
    strayPod.matchesLabels [] = true ∧ rsEmptySel.getMatchingPods = [strayPod] :=
  ⟨empty_selector_matches_all.1 strayPod,
    (empty_selector_matches_all.2 rsEmptySel emptySelSpec rfl rfl).trans
      (by decide)⟩

/-- C10: `is_ready()` is true for any pod in RUNNING phase with an empty
container-status list; `Pod.__init__` starts with no container statuses and
the phase setter (the fault injector's path) never populates them, so a pod
moved to RUNNING without `start()` is reported ready. -/
theorem isReady_after_direct_phase_set :
    (∀ (md : PodMetadata) (ps : PodSpec) (ph : PodPhase),
       (Pod.init md ps ph).containerStatuses = []) ∧
    (∀ (p : Pod) (ph : PodPhase),
       (p.setPhase ph).containerStatuses = p.containerStatuses) ∧
    (∀ p : Pod, p.phase = PodPhase.running → p.containerStatuses = [] →
       p.isReady = true) := by
  refine ⟨fun md ps ph => rfl, fun p ph => rfl, fun p h1 h2 => ?_⟩
  simp [Pod.isReady, h1, h2]

theorem isReady_after_direct_phase_set_witness :
    (pendingPod.setPhase PodPhase.running).isReady = true :=
  isReady_after_direct_phase_set.2.2 (pendingPod.setPhase PodPhase.running)
    (by decide) (by decide)

/-- A spec with negative replicas (the spec's first invalid case). -/
def badSpec : ReplicaSetSpec :=
  { replicas := -1, selector := [("app", "web")], template := webTemplate }

/-- C5 counterexample: `update_spec` with `replicas = -1` raises nothing
and does not leave the previously stored spec and generation counter
unchanged — it stores the invalid spec and bumps the generation. -/
theorem update_spec_no_validation_cex :
    badSpec.replicas < 0 ∧
    rsWeb0.spec = some webSpec1 ∧
    (rsWeb0.updateSpec badSpec).spec = some badSpec ∧
    (rsWeb0.updateSpec badSpec).spec ≠ rsWeb0.spec ∧
    (rsWeb0.updateSpec badSpec).generation = rsWeb0.generation + 1 :=
  ⟨by decide, rfl, rfl, by decide, rfl⟩

/-- C5 (amended): `update_spec` performs no validation and raises no error:
for every spec — including one with `replicas < 0` or an empty selector —
it replaces the stored spec and increments the generation by one. -/
theorem update_spec_always_applies (rs : ReplicaSet) (s : ReplicaSetSpec) :
    (rs.updateSpec s).spec = some s ∧
    (rs.updateSpec s).generation = rs.generation + 1 :=
  ⟨rfl, rfl⟩

/-- C6: registering a ReplicaSet under a name that already exists raises
the duplicate-name error (the source's `ValueError`) synchronously with no
state mutated, and exactly one group with that name exists afterwards. -/
theorem duplicate_name_rejected (cm : ControllerManager) (name : String)
    (r1 r2 : Int) (sel1 sel2 : Labels) (t1 t2 : PodTemplate)
    (uid1 uid2 : String)
    (hfresh : cm.replicaSets.lookup name = none) :
    ∃ (cm1 : ControllerManager) (rs1 : ReplicaSet),
      cm.createReplicaSet name r1 sel1 t1 uid1 = Except.ok (cm1, rs1) ∧
      cm1.createReplicaSet name r2 sel2 t2 uid2 =
        Except.error (ControllerError.valueError
          ("ReplicaSet " ++ name ++ " already exists")) ∧
      (cm1.replicaSets.filter fun e => e.1 == name).length = 1 := by
  have hnotmem := not_mem_keys_of_lookup_eq_none hfresh
  refine ⟨⟨cm.replicaSets ++ [(name, (ReplicaSet.init name uid1).updateSpec
      { replicas := r1, selector := sel1, template := t1 })]⟩,
    (ReplicaSet.init name uid1).updateSpec
      { replicas := r1, selector := sel1, template := t1 }, ?_, ?_, ?_⟩
  · simp only [ControllerManager.createReplicaSet, hfresh, Option.isSome_none,
      Bool.false_eq_true, if_false]
  · simp only [ControllerManager.createReplicaSet,
      lookup_append_of_left_none hfresh, List.lookup_cons, beq_self_eq_true,
      Option.isSome_some, if_true]
  · rw [List.filter_append, List.filter_eq_nil_iff.mpr fun e he hcontra => by
      exact hnotmem (List.mem_map.mpr ⟨e, he, eq_of_beq hcontra⟩)]
    simp

theorem duplicate_name_rejected_witness :
    ∃ (cm1 : ControllerManager) (rs1 : ReplicaSet),
      ControllerManager.createReplicaSet {} "web" 3 [("app", "web")]
        webTemplate "u1" = Except.ok (cm1, rs1) ∧
      cm1.createReplicaSet "web" 3 [("app", "web")] webTemplate "u2" =
        Except.error (ControllerError.valueError
          ("ReplicaSet " ++ "web" ++ " already exists")) ∧
      (cm1.replicaSets.filter fun e => e.1 == "web").length = 1 :=
  duplicate_name_rejected {} "web" 3 3 [("app", "web")] [("app", "web")]
    webTemplate webTemplate "u1" "u2" rfl

/-- C4: every pod built by `_create_pod` is stamped with the template
labels updated by the selector (selector wins on conflicts), so its labels
contain every selector pair; and every pod returned by
`get_matching_pods()` contains every selector pair. -/
theorem pod_labels_superset_of_selector :
    (∀ (rs : ReplicaSet) (s : ReplicaSetSpec) (ctr : Nat),
       (rs.createPod s ctr).metadata.labels =
         s.selector ++ s.template.labels ∧
       ((s.selector.map Prod.fst).Nodup →
         ∀ kv ∈ s.selector,
           (rs.createPod s ctr).metadata.labels.lookup kv.1 = some kv.2)) ∧
    (∀ (rs : ReplicaSet) (s : ReplicaSetSpec), rs.spec = some s →
       ∀ p ∈ rs.getMatchingPods, ∀ kv ∈ s.selector,
         p.metadata.labels.lookup kv.1 = some kv.2) := by
  constructor
  · intro rs s ctr
    refine ⟨rfl, fun hnd kv hkv => ?_⟩
    exact lookup_append_of_left_some (lookup_of_mem_of_nodup_keys hnd hkv)
  · intro rs s hspec p hp kv hkv
    have hm := ((mem_getMatchingPods_iff hspec p).mp hp).2.1
    exact (matchesLabels_eq_true_iff p s.selector).mp hm kv hkv

/-- The filter predicate applied by `get_matching_pods`. -/
def matchingFilter (s : ReplicaSetSpec) : Pod → Bool := fun p =>
  p.matchesLabels s.selector &&
    !(p.phase == PodPhase.succeeded || p.phase == PodPhase.failed ||
      p.phase == PodPhase.terminating)

/-- `get_matching_pods` as a filter over the owned pods, once a spec is
set. -/
theorem getMatchingPods_eq_filter {rs : ReplicaSet} {s : ReplicaSetSpec}
    (hspec : rs.spec = some s) :
    rs.getMatchingPods = (rs.pods.map Prod.snd).filter (matchingFilter s) := by
  unfold ReplicaSet.getMatchingPods matchingFilter
  rw [hspec]

/-- `start()` never changes a pod's metadata. -/
theorem start_metadata (p : Pod) (b : Bool) :
    (p.start b).metadata = p.metadata := by
  unfold Pod.start
  split
  · rfl
  · split <;> rfl

/-- A freshly created pod still matches the selector after `start()`
(selector keys unique, as Python dict keys are). -/
theorem started_createPod_matchesLabels (rs : ReplicaSet)
    (s : ReplicaSetSpec) (ctr : Nat) (b : Bool)
    (hsel : (s.selector.map Prod.fst).Nodup) :
    ((rs.createPod s ctr).start b).matchesLabels s.selector = true := by
  apply (matchesLabels_eq_true_iff _ _).mpr
  intro kv hkv
  rw [start_metadata]
  exact lookup_append_of_left_some (lookup_of_mem_of_nodup_keys hsel hkv)

/-- A successful `start()` of a freshly created pod ends in RUNNING. -/
theorem started_createPod_phase (rs : ReplicaSet) (s : ReplicaSetSpec)
    (ctr : Nat) : ((rs.createPod s ctr).start false).phase =
      PodPhase.running := rfl

/-- `terminate()` of a pod in a phase outside
`[SUCCEEDED, FAILED, TERMINATING]` ends in SUCCEEDED. -/
theorem terminate_phase_of_nonterminal (p : Pod)
    (h1 : p.phase ≠ PodPhase.succeeded) (h2 : p.phase ≠ PodPhase.failed)
    (h3 : p.phase ≠ PodPhase.terminating) :
    p.terminate.phase = PodPhase.succeeded := by
  unfold Pod.terminate
  rw [if_neg (by tauto)]
  rfl

/-- Computation of `reconcile()` through the scale-down branch: the pods
popped from `_pods` are keyed by the most-recently-created prefix of the
sorted matching list, and `pods_deleted` grows by that prefix's length. -/
theorem reconcile_scale_down_eq (rs : ReplicaSet) (s : ReplicaSetSpec)
    (rand : Nat → Bool) (ctr : Nat)
    (hspec : rs.spec = some s)
    (hmore : s.replicas < (rs.getMatchingPods.length : Int)) :
    ((rs.reconcile rand ctr).1.pods = rs.pods.filter fun e =>
      !((((sortByNewest rs.getMatchingPods).take
            (((rs.getMatchingPods.length : Int) - s.replicas).toNat)).map
          fun p => p.metadata.uid).contains e.1)) ∧
    (rs.reconcile rand ctr).1.metrics.podsDeleted =
      rs.metrics.podsDeleted + ((sortByNewest rs.getMatchingPods).take
          (((rs.getMatchingPods.length : Int) - s.replicas).toNat)).length := by
  obtain ⟨n, ns, u, spec, pods, g, og, m⟩ := rs
  replace hspec : spec = some s := hspec
  subst hspec
  have hmp : ∀ m' : Metrics,
      ReplicaSet.getMatchingPods ⟨n, ns, u, some s, pods, g, og, m'⟩ =
        (pods.map Prod.snd).filter fun p =>
          p.matchesLabels s.selector &&
            !(p.phase == PodPhase.succeeded || p.phase == PodPhase.failed ||
              p.phase == PodPhase.terminating) := fun m' => rfl
  rw [hmp] at hmore ⊢
  set M := (pods.map Prod.snd).filter fun p =>
    p.matchesLabels s.selector &&
      !(p.phase == PodPhase.succeeded || p.phase == PodPhase.failed ||
        p.phase == PodPhase.terminating) with hMdef
  have hnotfail : ∀ p ∈ M, (p.phase == PodPhase.failed) = false := by
    intro p hp
    have hfp := (List.mem_filter.mp hp).2
    simp only [Bool.and_eq_true, Bool.not_eq_true', Bool.or_eq_false_iff]
      at hfp
    exact hfp.2.1.2
  have hnotterm : ∀ p ∈ M, p.phase ≠ PodPhase.succeeded ∧
      p.phase ≠ PodPhase.failed ∧ p.phase ≠ PodPhase.terminating := by
    intro p hp
    have hfp := (List.mem_filter.mp hp).2
    simp only [Bool.and_eq_true, Bool.not_eq_true', Bool.or_eq_false_iff,
      beq_eq_false_iff_ne] at hfp
    exact ⟨hfp.2.1.1, hfp.2.1.2, hfp.2.2⟩
  have hff : ∀ (vu : List PodID),
      (M.map fun p =>
          if vu.contains p.metadata.uid then p.terminate else p).filter
        (fun p => p.phase == PodPhase.failed) = [] := by
    intro vu
    apply List.filter_eq_nil_iff.mpr
    intro p hp
    obtain ⟨q, hq, rfl⟩ := List.mem_map.mp hp
    by_cases hv : vu.contains q.metadata.uid
    · rw [if_pos hv]
      obtain ⟨a1, a2, a3⟩ := hnotterm q hq
      rw [show (q.terminate.phase == PodPhase.failed) = false from
        by rw [terminate_phase_of_nonterminal q a1 a2 a3]; rfl]
      simp
    · rw [if_neg hv]
      rw [hnotfail q hq]
      simp
  simp only [ReplicaSet.reconcile, hmp]
  rw [if_neg (by omega), if_pos (by exact hmore)]
  simp only [ReplicaSet.scaleDown, ReplicaSet.replaceFailedPods, ← hMdef,
    hff, List.isEmpty_nil, if_true]
  exact ⟨trivial, trivial⟩

/-- C2: at the fixed point — matching non-terminal count equal to
`spec.replicas` and no owned pod in FAILED phase — one `reconcile()` call
creates no pod, terminates no pod, and leaves the owned-pod mapping (its
keys and each pod, hence each phase) unchanged. -/
theorem reconcile_fixed_point (rs : ReplicaSet) (s : ReplicaSetSpec)
    (rand : Nat → Bool) (ctr : Nat)
    (hspec : rs.spec = some s)
    (hnofail : ∀ e ∈ rs.pods, (Prod.snd e).phase ≠ PodPhase.failed)
    (hcount : (rs.getMatchingPods.length : Int) = s.replicas) :
    (rs.reconcile rand ctr).1.pods = rs.pods ∧
    (rs.reconcile rand ctr).1.metrics.podsCreated = rs.metrics.podsCreated ∧
    (rs.reconcile rand ctr).1.metrics.podsDeleted = rs.metrics.podsDeleted := by
  obtain ⟨n, ns, u, spec, pods, g, og, m⟩ := rs
  replace hspec : spec = some s := hspec
  subst hspec
  have hmp : ∀ m' : Metrics,
      ReplicaSet.getMatchingPods ⟨n, ns, u, some s, pods, g, og, m'⟩ =
        (pods.map Prod.snd).filter fun p =>
          p.matchesLabels s.selector &&
            !(p.phase == PodPhase.succeeded || p.phase == PodPhase.failed ||
              p.phase == PodPhase.terminating) := fun m' => rfl
  rw [hmp] at hcount
  have hff :
      ((pods.map Prod.snd).filter fun p =>
          p.matchesLabels s.selector &&
            !(p.phase == PodPhase.succeeded || p.phase == PodPhase.failed ||
              p.phase == PodPhase.terminating)).filter
        (fun p => p.phase == PodPhase.failed) = [] := by
    apply List.filter_eq_nil_iff.mpr
    intro p hp
    have hfp := (List.mem_filter.mp hp).2
    simp only [Bool.and_eq_true, Bool.not_eq_true', Bool.or_eq_false_iff]
      at hfp
    simp [hfp.2.1.2]
  simp only [ReplicaSet.reconcile, hmp]
  rw [if_neg (by rw [← hcount]; exact lt_irrefl _),
    if_neg (by rw [← hcount]; exact lt_irrefl _)]
  simp only [ReplicaSet.replaceFailedPods, hff, List.isEmpty_nil, if_true]
  exact ⟨trivial, trivial, trivial⟩

theorem reconcile_fixed_point_witness :
    (rsWeb1.spec = some webSpec1 ∧
      (∀ e ∈ rsWeb1.pods, (Prod.snd e).phase ≠ PodPhase.failed) ∧
      (rsWeb1.getMatchingPods.length : Int) = webSpec1.replicas) ∧
    (rsWeb1.reconcile randNever 1).1.pods = rsWeb1.pods :=
  ⟨⟨by decide, by decide, by decide⟩,
    (reconcile_fixed_point rsWeb1 webSpec1 randNever 1 (by decide)
      (by decide) (by decide)).1⟩

/-- C1 counterexample: for the converged one-replica group `rsWeb1`,
force-failing its only pod `uid-0` and reconciling restores the matching
count to one, but the failed pod is NOT removed from `_pods` — it is still
present, in FAILED phase, after `reconcile()` — contradicting the claim
that the failed instance is removed from the owned set. -/
theorem failed_pod_not_removed_cex :
    (rsWeb1.getMatchingPods.length : Int) = webSpec1.replicas ∧
    ((((rsWeb1.forceFailPod "uid-0").reconcile randNever 1).1.pods.lookup
        "uid-0").map Pod.phase = some PodPhase.failed) ∧
    ((((rsWeb1.forceFailPod "uid-0").reconcile randNever
        1).1.getMatchingPods.length : Int) = webSpec1.replicas) := by
  decide

/-- C3: whenever `reconcile()` finds more matching non-terminal pods than
`spec.replicas`, the pods it terminates and removes are exactly the excess
count of matching pods with the most recent creation timestamps (assumed
distinct): some victim list has exactly the excess length, every victim is
a matching pod, every surviving matching pod is strictly older than every
victim, precisely the victims' keys are popped from `_pods`, and
`pods_deleted` grows by the victim count. -/
theorem scale_down_removes_newest (rs : ReplicaSet) (s : ReplicaSetSpec)
    (rand : Nat → Bool) (ctr : Nat)
    (hspec : rs.spec = some s)
    (hpos : 0 ≤ s.replicas)
    (hmore : s.replicas < (rs.getMatchingPods.length : Int))
    (hts : (rs.getMatchingPods.map fun p =>
      p.metadata.creationTimestamp).Nodup) :
    ∃ victims : List Pod,
      victims.length = ((rs.getMatchingPods.length : Int) - s.replicas).toNat ∧
      (∀ v ∈ victims, v ∈ rs.getMatchingPods) ∧
      (∀ v ∈ victims, ∀ q ∈ rs.getMatchingPods, q ∉ victims →
        q.metadata.creationTimestamp < v.metadata.creationTimestamp) ∧
      ((rs.reconcile rand ctr).1.pods = rs.pods.filter fun e =>
        !((victims.map fun p => p.metadata.uid).contains e.1)) ∧
      (rs.reconcile rand ctr).1.metrics.podsDeleted =
        rs.metrics.podsDeleted + victims.length := by
  have hbranch := reconcile_scale_down_eq rs s rand ctr hspec hmore
  haveI hTot : IsTotal Pod (fun a b : Pod =>
      b.metadata.creationTimestamp ≤ a.metadata.creationTimestamp) :=
    ⟨fun a b => Nat.le_total _ _⟩
  haveI hTr : IsTrans Pod (fun a b : Pod =>
      b.metadata.creationTimestamp ≤ a.metadata.creationTimestamp) :=
    ⟨fun a b c h1 h2 => Nat.le_trans h2 h1⟩
  have hsorted : List.Sorted (fun a b : Pod =>
      b.metadata.creationTimestamp ≤ a.metadata.creationTimestamp)
      (sortByNewest rs.getMatchingPods) :=
    List.sorted_insertionSort
      (fun a b : Pod =>
        b.metadata.creationTimestamp ≤ a.metadata.creationTimestamp)
      rs.getMatchingPods
  have hperm : List.Perm (sortByNewest rs.getMatchingPods)
      rs.getMatchingPods :=
    List.perm_insertionSort _ rs.getMatchingPods
  refine ⟨(sortByNewest rs.getMatchingPods).take
    (((rs.getMatchingPods.length : Int) - s.replicas).toNat),
    ?_, ?_, ?_, hbranch.1, hbranch.2⟩
  · rw [List.length_take, Nat.min_eq_left]
    rw [hperm.length_eq]
    omega
  · intro v hv
    exact hperm.mem_iff.mp (List.mem_of_mem_take hv)
  · intro v hv q hq hqnot
    have hqdrop : q ∈ (sortByNewest rs.getMatchingPods).drop
        (((rs.getMatchingPods.length : Int) - s.replicas).toNat) := by
      have hqall : q ∈ (sortByNewest rs.getMatchingPods).take
          (((rs.getMatchingPods.length : Int) - s.replicas).toNat) ++
          (sortByNewest rs.getMatchingPods).drop
          (((rs.getMatchingPods.length : Int) - s.replicas).toNat) := by
        rw [List.take_append_drop]
        exact hperm.mem_iff.mpr hq
      rcases List.mem_append.mp hqall with h | h
      · exact absurd h hqnot
      · exact h
    have hle : q.metadata.creationTimestamp ≤ v.metadata.creationTimestamp :=
      hsorted.rel_of_mem_take_of_mem_drop hv hqdrop
    have hne : q.metadata.creationTimestamp ≠
        v.metadata.creationTimestamp := by
      intro heq
      have hqv : q = v := List.inj_on_of_nodup_map hts hq
        (hperm.mem_iff.mp (List.mem_of_mem_take hv)) heq
      exact hqnot (hqv ▸ hv)
    exact Nat.lt_of_le_of_ne hle hne

theorem scale_down_removes_newest_witness :
    ((rsWeb3.updateSpec webSpec2).spec = some webSpec2 ∧
      (0 : Int) ≤ webSpec2.replicas ∧
      webSpec2.replicas <
        ((rsWeb3.updateSpec webSpec2).getMatchingPods.length : Int)) ∧
    (∃ victims : List Pod,
      victims.length =
        (((rsWeb3.updateSpec webSpec2).getMatchingPods.length : Int) -
          webSpec2.replicas).toNat ∧
      (∀ v ∈ victims, v ∈ (rsWeb3.updateSpec webSpec2).getMatchingPods) ∧
      (∀ v ∈ victims, ∀ q ∈ (rsWeb3.updateSpec webSpec2).getMatchingPods,
        q ∉ victims →
        q.metadata.creationTimestamp < v.metadata.creationTimestamp) ∧
      (((rsWeb3.updateSpec webSpec2).reconcile randNever 3).1.pods =
        (rsWeb3.updateSpec webSpec2).pods.filter fun e =>
          !((victims.map fun p => p.metadata.uid).contains e.1)) ∧
      ((rsWeb3.updateSpec webSpec2).reconcile randNever 3).1.metrics.podsDeleted
        = (rsWeb3.updateSpec webSpec2).metrics.podsDeleted + victims.length) ∧
    (((rsWeb3.updateSpec webSpec2).reconcile randNever 3).1.pods.map Prod.fst
      = ["uid-0", "uid-1"]) :=
  ⟨⟨by decide, by decide, by decide⟩,
    scale_down_removes_newest (rsWeb3.updateSpec webSpec2) webSpec2
      randNever 3 (by decide) (by decide) (by decide) (by decide),
    by decide⟩

/-- C1 (amended): for a converged group — every owned pod matching the
selector and RUNNING, owned count equal to `spec.replicas` — force-failing
one owned pod and then calling `reconcile()` does NOT remove the failed pod
from the owned `_pods` mapping: it stays there in FAILED phase, merely
excluded from the matching count.  The count shortfall is healed through
the scale-up path instead: exactly one replacement pod is created and
started (`pods_created` grows by one), and when the replacement's start
succeeds the matching non-terminal count is restored to `spec.replicas`. -/
theorem self_heal_keeps_failed_pod (rs : ReplicaSet) (s : ReplicaSetSpec)
    (rand : Nat → Bool) (ctr : Nat) (vu : PodID) (vp : Pod)
    (l₁ l₂ : List (PodID × Pod))
    (hspec : rs.spec = some s)
    (hsplit : rs.pods = l₁ ++ (vu, vp) :: l₂)
    (hnodup : (rs.pods.map Prod.fst).Nodup)
    (hall : ∀ e ∈ rs.pods, (Prod.snd e).matchesLabels s.selector = true ∧
      (Prod.snd e).phase = PodPhase.running)
    (hconv : (rs.pods.length : Int) = s.replicas)
    (hsel : (s.selector.map Prod.fst).Nodup)
    (hok : rand ctr = false) :
    ((((rs.forceFailPod vu).reconcile rand ctr).1.pods.lookup vu).map
        Pod.phase = some PodPhase.failed) ∧
    ((rs.forceFailPod vu).reconcile rand ctr).1.metrics.podsCreated =
      rs.metrics.podsCreated + 1 ∧
    ((((rs.forceFailPod vu).reconcile rand
        ctr).1.getMatchingPods.length : Int) = s.replicas) := by
  obtain ⟨n, ns, u, spec, pods, g, og, m⟩ := rs
  replace hspec : spec = some s := hspec
  subst hspec
  replace hsplit : pods = l₁ ++ (vu, vp) :: l₂ := hsplit
  subst hsplit
  replace hnodup : ((l₁ ++ (vu, vp) :: l₂).map Prod.fst).Nodup := hnodup
  replace hall : ∀ e ∈ l₁ ++ (vu, vp) :: l₂,
      (Prod.snd e).matchesLabels s.selector = true ∧
      (Prod.snd e).phase = PodPhase.running := hall
  replace hconv : (((l₁ ++ (vu, vp) :: l₂).length : Nat) : Int) =
    s.replicas := hconv
  rw [List.map_append, List.map_cons] at hnodup
  have h1 : vu ∉ l₁.map Prod.fst := fun hmem =>
    (List.disjoint_of_nodup_append hnodup) hmem (List.mem_cons_self vu _)
  have h2 : vu ∉ l₂.map Prod.fst :=
    (List.nodup_cons.mp hnodup.of_append_right).1
  have hmapF : (l₁ ++ (vu, vp) :: l₂).map (fun e =>
      if e.1 == vu then (e.1, Pod.setPhase e.2 PodPhase.failed) else e) =
      l₁ ++ (vu, Pod.setPhase vp PodPhase.failed) :: l₂ := by
    rw [List.map_append, List.map_cons]
    congr 1
    · exact map_eq_self_of_fixed (fun e he => if_neg fun hbe =>
        h1 (List.mem_map.mpr ⟨e, he, eq_of_beq hbe⟩))
    · congr 1
      · simp
      · exact map_eq_self_of_fixed (fun e he => if_neg fun hbe =>
          h2 (List.mem_map.mpr ⟨e, he, eq_of_beq hbe⟩))
  have hmfil : ∀ p : Pod, p.matchesLabels s.selector = true →
      p.phase = PodPhase.running → matchingFilter s p = true := by
    intro p hm hp
    simp [matchingFilter, hm, hp]
  have hcore : ((l₁ ++ (vu, Pod.setPhase vp PodPhase.failed) :: l₂).map
      Prod.snd).filter (matchingFilter s) =
      l₁.map Prod.snd ++ l₂.map Prod.snd := by
    rw [List.map_append, List.map_cons, List.filter_append, List.filter_cons]
    have hfailphase : matchingFilter s (Pod.setPhase vp PodPhase.failed) =
        false := by
      simp [matchingFilter, Pod.setPhase, Pod.recordEvent]
    rw [hfailphase]
    simp only [Bool.false_eq_true, if_false]
    rw [List.filter_eq_self.mpr fun p hp => by
        obtain ⟨e, he, hpe⟩ := List.mem_map.mp hp
        obtain ⟨hm, hr⟩ := hall e (List.mem_append_left _ he)
        exact hpe ▸ hmfil e.2 hm hr,
      List.filter_eq_self.mpr fun p hp => by
        obtain ⟨e, he, hpe⟩ := List.mem_map.mp hp
        obtain ⟨hm, hr⟩ := hall e
          (List.mem_append_right _ (List.mem_cons_of_mem _ he))
        exact hpe ▸ hmfil e.2 hm hr]
  have hmatchF : ∀ m' : Metrics,
      ReplicaSet.getMatchingPods ⟨n, ns, u, some s,
        l₁ ++ (vu, Pod.setPhase vp PodPhase.failed) :: l₂, g, og, m'⟩ =
        l₁.map Prod.snd ++ l₂.map Prod.snd := fun m' =>
    (getMatchingPods_eq_filter rfl).trans hcore
  have hnof : (l₁.map Prod.snd ++ l₂.map Prod.snd).filter
      (fun p => p.phase == PodPhase.failed) = [] := by
    apply List.filter_eq_nil_iff.mpr
    intro p hp
    rcases List.mem_append.mp hp with h | h
    · obtain ⟨e, he, hpe⟩ := List.mem_map.mp h
      have hr := (hall e (List.mem_append_left _ he)).2
      rw [← hpe]
      simp [hr]
    · obtain ⟨e, he, hpe⟩ := List.mem_map.mp h
      have hr := (hall e
        (List.mem_append_right _ (List.mem_cons_of_mem _ he))).2
      rw [← hpe]
      simp [hr]
  have hlen : ((l₁.map Prod.snd ++ l₂.map Prod.snd).length : Int) <
      s.replicas := by
    simp only [List.length_append, List.length_map, List.length_cons]
      at hconv ⊢
    omega
  have hone : (s.replicas -
      ((l₁.map Prod.snd ++ l₂.map Prod.snd).length : Int)).toNat = 1 := by
    simp only [List.length_append, List.length_map, List.length_cons]
      at hconv ⊢
    omega
  simp only [ReplicaSet.forceFailPod]
  rw [hmapF]
  simp only [ReplicaSet.reconcile]
  rw [hmatchF]
  rw [if_pos hlen, hone]
  have hr1 : List.range 1 = [0] := rfl
  simp only [ReplicaSet.scaleUp, hr1, List.map_cons, List.map_nil,
    Nat.add_zero, hok]
  simp only [ReplicaSet.replaceFailedPods, hnof, List.isEmpty_nil, if_true]
  refine ⟨?_, ?_, ?_⟩
  · rw [show (l₁ ++ (vu, Pod.setPhase vp PodPhase.failed) :: l₂) ++ _ =
      l₁ ++ ((vu, Pod.setPhase vp PodPhase.failed) :: l₂ ++ _) from by
        rw [List.append_assoc]]
    rw [lookup_append_of_left_none (lookup_eq_none_of_not_mem_keys h1)]
    simp [List.lookup_cons, Pod.setPhase, Pod.recordEvent]
  · trivial
  · rw [getMatchingPods_eq_filter rfl]
    rw [List.map_append, List.filter_append, hcore]
    have hnew : ∀ rsx : ReplicaSet,
        matchingFilter s ((rsx.createPod s ctr).start false) = true := by
      intro rsx
      unfold matchingFilter
      rw [started_createPod_matchesLabels _ _ _ _ hsel,
        started_createPod_phase]
      rfl
    rw [List.map_cons, List.map_nil, List.filter_cons, hnew _]
    simp only [if_true, List.filter_nil]
    simp only [List.length_append, List.length_map, List.length_cons,
      List.length_nil] at hconv ⊢
    omega

theorem self_heal_keeps_failed_pod_witness :
    ((((rsWeb1.forceFailPod "uid-0").reconcile randNever 1).1.pods.lookup
        "uid-0").map Pod.phase = some PodPhase.failed) ∧
    ((rsWeb1.forceFailPod "uid-0").reconcile randNever
        1).1.metrics.podsCreated = rsWeb1.metrics.podsCreated + 1 ∧
    ((((rsWeb1.forceFailPod "uid-0").reconcile randNever
        1).1.getMatchingPods.length : Int) = webSpec1.replicas) :=
  self_heal_keeps_failed_pod rsWeb1 webSpec1 randNever 1 "uid-0" podWeb0
    [] [] (by decide) (by decide) (by decide) (by decide) (by decide)
    (by decide) rfl

theorem pod_labels_superset_of_selector_witness :
    (rsWeb0.createPod webSpec1 0).metadata.labels.lookup "app" = some "web" ∧
    podWeb0.metadata.labels.lookup "app" = some "web" :=
  ⟨(pod_labels_superset_of_selector.1 rsWeb0 webSpec1 0).2 (by decide)
      ("app", "web") (by decide),
    pod_labels_superset_of_selector.2 rsWeb1 webSpec1 (by decide) podWeb0
      (by decide) ("app", "web") (by decide)⟩

end Replica
